import Mathlib

/-!
Verification of the GoalForge AI Live Assistant Session.

This development gives a shallow embedding of the realtime voice-assistant
bridge of the GoalForge application (`src/hooks/useGeminiLive.ts` and the
plan-mutation handlers in `src/components/AIAssistant.tsx`) and proves the
specified properties about it.

Modelling conventions:
* TypeScript runtime values are modelled at their JavaScript runtime shape:
  `priority` and `status` are plain strings (the TS enums erase to their
  string values), absent/`undefined` object fields are `Option`, and the
  JavaScript `||` defaulting operator is modelled by `jsOrStr`, which treats
  the empty string as falsy exactly as JavaScript does.
* `crypto.randomUUID()` is modelled by an injected identifier supply
  `gen : Nat → String`; the browser API always returns a fresh 36-character
  string, which appears as the hypothesis that `gen` yields non-empty strings.
* Playback times (`AudioContext.currentTime`, buffer durations) are rationals.
* The React state updates of the component are modelled by explicit state
  passing on an `AppState` record.
-/

namespace GoalForge

/-- Runtime shape of a subtask (`src/types.ts`). -/
structure Subtask where
  id : String
  text : String
  completed : Bool
deriving DecidableEq, Repr

/-- Runtime shape of a task (`src/types.ts`); `priority` and `status` are the
underlying strings of the TS enums (`High`/`Medium`/`Low`, `To Do`/`In
Progress`/`Done`), which is what actually flows through the untyped tool-call
path. -/
structure Task where
  id : String
  title : String
  description : String
  priority : String
  timeEstimate : String
  status : String
  subtasks : List Subtask
deriving DecidableEq, Repr

/-- Runtime shape of a project (`src/types.ts`). -/
structure Project where
  id : String
  goal : String
  plan : List Task
  createdAt : String
deriving DecidableEq, Repr

/-! ## Audio playback scheduler

`processMessage` in `src/hooks/useGeminiLive.ts` keeps a cursor
`nextAudioTimeRef` and a set `audioSourcesRef` of in-flight
`AudioBufferSourceNode`s.  Sources are identified here by a `Nat` tag. -/

/-- The playback-scheduler portion of the session state:
`nextAudioTimeRef.current` and the `audioSourcesRef.current` set. -/
structure PlaybackState where
  nextAudioTime : ℚ
  activeSources : List Nat
deriving DecidableEq, Repr

/-- Result of scheduling one decoded chunk: the chosen start time and the
updated scheduler state. -/
structure ScheduleOut where
  startTime : ℚ
  state : PlaybackState
deriving DecidableEq, Repr

/-- Embeds the audio branch of `processMessage`
(`src/hooks/useGeminiLive.ts:156-164`):
`startTime = max(currentTime, nextAudioTimeRef.current)`, the source is
started at `startTime`, the cursor advances to `startTime + duration`, and
the source is added to the active set. -/
def scheduleChunk (currentTime duration : ℚ) (srcId : Nat) (s : PlaybackState) :
    ScheduleOut :=
  let startTime := max currentTime s.nextAudioTime
  ⟨startTime, ⟨startTime + duration, srcId :: s.activeSources⟩⟩

/-- Result of the interruption branch: the sources that were stopped and the
updated scheduler state. -/
structure InterruptOut where
  stopped : List Nat
  state : PlaybackState
deriving DecidableEq, Repr

/-- Embeds the `message.serverContent.interrupted` branch of `processMessage`
(`src/hooks/useGeminiLive.ts:166-170`): every active source is stopped, the
set is cleared, and the cursor is reset to `0`. -/
def onInterrupted (s : PlaybackState) : InterruptOut :=
  ⟨s.activeSources, ⟨0, []⟩⟩

/-- Embeds `source.onended` (`src/hooks/useGeminiLive.ts:163`): a finished
source removes itself from the active set. -/
def onSourceEnded (srcId : Nat) (s : PlaybackState) : PlaybackState :=
  ⟨s.nextAudioTime, s.activeSources.erase srcId⟩

/-- Start times chosen for a whole sequence of chunks, each given as a pair
(output-clock reading at receipt, chunk duration). -/
def scheduleStarts (s : PlaybackState) : List (ℚ × ℚ) → List ℚ
  | [] => []
  | c :: rest =>
    (scheduleChunk c.1 c.2 0 s).startTime ::
      scheduleStarts (scheduleChunk c.1 c.2 0 s).state rest

lemma clock_le_scheduleStarts (s : PlaybackState) (chunks : List (ℚ × ℚ)) :
    List.Forall₂ (fun c st => c.1 ≤ st) chunks (scheduleStarts s chunks) := by
  induction chunks generalizing s with
  | nil => exact List.Forall₂.nil
  | cons c rest ih =>
    exact List.Forall₂.cons (le_max_left _ _) (ih _)

/-- C1: every scheduled chunk starts no earlier than the output clock's
current time; the cursor advances to start-plus-duration; and when the cursor
has not fallen behind the clock at the next chunk's arrival, that chunk starts
exactly where the previous one ended (no gaps, no overlaps).  The final
conjunct states the clock lower bound for an arbitrary chunk sequence. -/
theorem playback_gapless_monotone (s : PlaybackState) (ct1 d1 ct2 d2 : ℚ)
    (id1 id2 : Nat) :
    ct1 ≤ (scheduleChunk ct1 d1 id1 s).startTime ∧
    ct2 ≤ (scheduleChunk ct2 d2 id2 (scheduleChunk ct1 d1 id1 s).state).startTime ∧
    (scheduleChunk ct1 d1 id1 s).state.nextAudioTime
      = (scheduleChunk ct1 d1 id1 s).startTime + d1 ∧
    (ct2 ≤ (scheduleChunk ct1 d1 id1 s).state.nextAudioTime →
      (scheduleChunk ct2 d2 id2 (scheduleChunk ct1 d1 id1 s).state).startTime
        = (scheduleChunk ct1 d1 id1 s).startTime + d1) ∧
    ∀ (s0 : PlaybackState) (chunks : List (ℚ × ℚ)),
      List.Forall₂ (fun c st => c.1 ≤ st) chunks (scheduleStarts s0 chunks) := by
  refine ⟨le_max_left _ _, le_max_left _ _, rfl, ?_, clock_le_scheduleStarts⟩
  intro h
  simp only [scheduleChunk]
  exact max_eq_right h

/-- Witness for `playback_gapless_monotone` at a concrete input: from the
fresh state, a chunk at clock 1 with duration 2 is followed by a chunk at
clock 3; the second chunk starts exactly at 1 + 2 = 3. -/
theorem playback_gapless_monotone_witness :
    (scheduleChunk 3 1 1 (scheduleChunk 1 2 0 ⟨0, []⟩).state).startTime
      = (scheduleChunk 1 2 0 (⟨0, []⟩ : PlaybackState)).startTime + 2 :=
  (playback_gapless_monotone ⟨0, []⟩ 1 2 3 1 0 1).2.2.2.1 (by
    simp [scheduleChunk]
    norm_num)

/-- C2: after an interruption signal every unit of the active set is stopped,
the active set is empty and the cursor is 0; a chunk arriving immediately
afterwards (at any non-negative clock reading) is scheduled to start exactly
at the clock's current time. -/
theorem interruption_flushes (s : PlaybackState) (ct d : ℚ) (srcId : Nat)
    (hct : 0 ≤ ct) :
    (onInterrupted s).stopped = s.activeSources ∧
    (onInterrupted s).state.activeSources = [] ∧
    (onInterrupted s).state.nextAudioTime = 0 ∧
    (scheduleChunk ct d srcId (onInterrupted s).state).startTime = ct := by
  refine ⟨rfl, rfl, rfl, ?_⟩
  simp only [onInterrupted, scheduleChunk]
  exact max_eq_left hct

/-- Witness for `interruption_flushes`: interrupting a state with cursor 5 and
two active sources flushes both and resets the cursor; a chunk arriving at
clock 7 starts at 7, not at the stale cursor. -/
theorem interruption_flushes_witness :
    (onInterrupted ⟨5, [1, 2]⟩).stopped = [1, 2] ∧
    (onInterrupted ⟨5, [1, 2]⟩).state.activeSources = [] ∧
    (onInterrupted ⟨5, [1, 2]⟩).state.nextAudioTime = 0 ∧
    (scheduleChunk 7 1 3 (onInterrupted ⟨5, [1, 2]⟩).state).startTime = 7 :=
  interruption_flushes ⟨5, [1, 2]⟩ 7 1 3 (by norm_num)

/-! ## Tool-call dispatcher

The `message.toolCall` branch of `processMessage`
(`src/hooks/useGeminiLive.ts:174-214`) loops over the batch of function
calls, runs the matching handler inside a `try`/`catch`, and always sends a
`sendToolResponse` correlated by the call's `id` and `name`. The plan
mutations are the `handleTaskAdded` / `handleTaskEdited` /
`handleSubtaskCompleted` callbacks of `src/components/AIAssistant.tsx`. -/

/-- JavaScript `v || d` on string-valued object fields: `undefined` (`none`)
and the empty string are falsy and fall through to the default. -/
def jsOrStr (v : Option String) (d : String) : String :=
  match v with
  | none => d
  | some s => if s = "" then d else s

/-- Wire shape of one element of `task.subtasks` in `add_task_to_plan`
arguments. -/
structure SubtaskData where
  id : Option String := none
  text : Option String := none
  completed : Bool := false
deriving DecidableEq, Repr

/-- Runtime value of the `subtasks` key of the `task` argument: either an
actual array or some truthy non-array JSON value, on which the code's
`.map(...)` call raises a `TypeError`. -/
inductive SubtasksVal
  | arr (items : List SubtaskData)
  | notArray
deriving DecidableEq, Repr

/-- Wire shape of the `task` argument of `add_task_to_plan`. -/
structure TaskData where
  id : Option String := none
  title : Option String := none
  description : Option String := none
  priority : Option String := none
  timeEstimate : Option String := none
  status : Option String := none
  subtasks : Option SubtasksVal := none
deriving DecidableEq, Repr

/-- The argument payload of a function call: a JSON object over the keys the
dispatcher ever reads.  No schema validation happens before use, so every
field is optional and enum-valued fields are raw strings. -/
structure CallArgs where
  task : Option TaskData := none
  taskId : Option String := none
  subtaskId : Option String := none
  id : Option String := none
  title : Option String := none
  description : Option String := none
  priority : Option String := none
  timeEstimate : Option String := none
  status : Option String := none
  subtasks : Option (List Subtask) := none
deriving DecidableEq, Repr

/-- One function-call request as received: `{id, name, args}`. -/
structure FunctionCall where
  id : String
  name : String
  args : Option CallArgs := none
deriving DecidableEq, Repr

/-- One `sendToolResponse` payload: `{id, name, response: {result}}`. -/
structure ToolResponse where
  id : String
  name : String
  result : String
deriving DecidableEq, Repr

/-- The success marker the dispatcher initialises `result` with. -/
def successResult : String := "Function executed successfully."

/-- Builds one subtask as the `subtasks.map` callback does
(`src/hooks/useGeminiLive.ts:186-190`): `st.id || crypto.randomUUID()`,
`st.text || 'Unnamed subtask'`, `!!st.completed`.  The identifier supply
index `n` stands for one `crypto.randomUUID()` invocation. -/
def buildSubtask (gen : Nat → String) (n : Nat) (st : SubtaskData) : Subtask :=
  ⟨jsOrStr st.id (gen n), jsOrStr st.text "Unnamed subtask", st.completed⟩

/-- Maps `buildSubtask` over the subtask array, threading the identifier
supply. -/
def buildSubtasks (gen : Nat → String) : Nat → List SubtaskData → List Subtask
  | _, [] => []
  | n, st :: rest => buildSubtask gen n st :: buildSubtasks gen (n + 1) rest

/-- The `newTask` object literal of the `add_task_to_plan` handler
(`src/hooks/useGeminiLive.ts:179-191`), field by field. -/
def mkTask (gen : Nat → String) (td : TaskData) (items : List SubtaskData) :
    Task :=
  { id := jsOrStr td.id (gen 0)
    title := jsOrStr td.title "Untitled Task"
    description := jsOrStr td.description ""
    priority := jsOrStr td.priority "Medium"
    timeEstimate := jsOrStr td.timeEstimate "N/A"
    status := jsOrStr td.status "To Do"
    subtasks := buildSubtasks gen 1 items }

/-- Builds the new task from the `task` argument.  A truthy non-array
`subtasks` value makes `(taskData.subtasks || []).map` throw, which the
dispatcher's `catch` turns into an error result. -/
def buildNewTask (gen : Nat → String) (td : TaskData) : Except String Task :=
  match td.subtasks with
  | some SubtasksVal.notArray =>
    Except.error "taskData.subtasks.map is not a function"
  | some (SubtasksVal.arr items) => Except.ok (mkTask gen td items)
  | none => Except.ok (mkTask gen td [])

/-- A chat entry of `AIAssistant` (`Message` type in
`src/components/AIAssistant.tsx`). -/
structure Message where
  sender : String
  text : String
  isFinal : Bool
deriving DecidableEq, Repr

/-- The component state the tool-call handlers touch: the current project,
the sequence of `storage.saveProject` snapshots, the chat log, the errors
surfaced through `onError`/`handleError`, plus the connection state and
session handle, which the handlers never touch (a tool-call failure does not
tear the session down). -/
structure AppState where
  project : Project
  saved : List Project
  messages : List Message
  errors : List String
  connState : String
  sessionOpen : Bool
deriving DecidableEq, Repr

/-- `handleTaskAdded` (`src/components/AIAssistant.tsx:95-101`): append the
task, persist, post a system message. -/
def handleTaskAdded (st : AppState) (task : Task) : AppState :=
  let p := st.project
  let p2 := { p with plan := p.plan ++ [task] }
  { st with
    project := p2
    saved := st.saved ++ [p2]
    messages := st.messages ++
      [⟨"system", "Task \"" ++ task.title ++ "\" has been added to the plan.",
        true⟩] }

/-- The JavaScript spread `{ ...task, ...updates }` where `updates` is
`func.args` minus `taskId`: every key present in the payload overwrites the
task's field verbatim — including `id` and `subtasks`, which are not in the
declared `edit_task_in_plan` schema — with no validation of types or enum
values.  (Payload keys that are not `Task` fields at all, such as `task` or
`subtaskId`, would become inert extra properties of the JS object and are
not representable on the fixed record.) -/
def mergeUpdates (t : Task) (u : CallArgs) : Task :=
  { id := u.id.getD t.id
    title := u.title.getD t.title
    description := u.description.getD t.description
    priority := u.priority.getD t.priority
    timeEstimate := u.timeEstimate.getD t.timeEstimate
    status := u.status.getD t.status
    subtasks := u.subtasks.getD t.subtasks }

/-- `handleTaskEdited` (`src/components/AIAssistant.tsx:102-116`): map over
the plan merging the updates into every task whose id matches, persist, post
a system message naming the (last) matched task's title. -/
def handleTaskEdited (st : AppState) (taskId : String) (u : CallArgs) :
    AppState :=
  let p := st.project
  let plan2 := p.plan.map fun t => if t.id = taskId then mergeUpdates t u else t
  let taskTitle := p.plan.foldl (fun acc t => if t.id = taskId then t.title else acc) ""
  let p2 := { p with plan := plan2 }
  { st with
    project := p2
    saved := st.saved ++ [p2]
    messages := st.messages ++
      [⟨"system", "Task \"" ++ taskTitle ++ "\" has been updated.", true⟩] }

/-- `handleSubtaskCompleted` (`src/components/AIAssistant.tsx:118-140`): in
every task whose id matches, set `completed := true` on every subtask whose
id matches; persist; post a system message.  The ids arrive unchecked from
`func.args` and may be absent (`none` models JS `undefined`, which matches
no string id). -/
def handleSubtaskCompleted (st : AppState) (tid sid : Option String) :
    AppState :=
  let p := st.project
  let plan2 := p.plan.map fun t =>
    if some t.id = tid then
      { t with subtasks := t.subtasks.map fun s =>
          if some s.id = sid then { s with completed := true } else s }
    else t
  let taskTitle := p.plan.foldl
    (fun acc t => if some t.id = tid then t.title else acc) ""
  let subText := p.plan.foldl
    (fun acc t =>
      if some t.id = tid then
        t.subtasks.foldl (fun a s => if some s.id = sid then s.text else a) acc
      else acc) ""
  let p2 := { p with plan := plan2 }
  { st with
    project := p2
    saved := st.saved ++ [p2]
    messages := st.messages ++
      [⟨"system", "Subtask \"" ++ subText ++ "\" in \"" ++ taskTitle ++
        "\" marked as complete.", true⟩] }

/-- One iteration of the `for (const func of message.toolCall.functionCalls)`
loop (`src/hooks/useGeminiLive.ts:175-213`): dispatch on `func.name` (each
guard also requires `func.args` to be present, else the chain falls through
to the unknown-function branch), catch any exception into an error result
plus an `onError` call, and emit the `sendToolResponse` payload.  Within
`onmessage` the session promise is always set (it is assigned in `connect`
before any callback can fire), so the response is always sent. -/
def runOneCall (gen : Nat → String) (st : AppState) (fc : FunctionCall) :
    AppState × ToolResponse :=
  match fc.args with
  | some args =>
    if fc.name = "add_task_to_plan" then
      match args.task with
      | some td =>
        match buildNewTask gen td with
        | Except.ok task => (handleTaskAdded st task, ⟨fc.id, fc.name, successResult⟩)
        | Except.error msg =>
          let r := "Error executing function " ++ fc.name ++ ": " ++ msg
          ({ st with errors := st.errors ++ [r] }, ⟨fc.id, fc.name, r⟩)
      | none => (st, ⟨fc.id, fc.name, successResult⟩)
    else if fc.name = "edit_task_in_plan" then
      match args.taskId with
      | some tid =>
        if tid = "" then (st, ⟨fc.id, fc.name, successResult⟩)
        else (handleTaskEdited st tid args, ⟨fc.id, fc.name, successResult⟩)
      | none => (st, ⟨fc.id, fc.name, successResult⟩)
    else if fc.name = "complete_subtask" then
      (handleSubtaskCompleted st args.taskId args.subtaskId,
        ⟨fc.id, fc.name, successResult⟩)
    else
      (st, ⟨fc.id, fc.name, "Unknown function call: " ++ fc.name⟩)
  | none => (st, ⟨fc.id, fc.name, "Unknown function call: " ++ fc.name⟩)

/-- The whole batch loop: thread the state through the calls and collect the
responses in order. -/
def processToolCalls (gen : Nat → String) :
    AppState → List FunctionCall → AppState × List ToolResponse
  | st, [] => (st, [])
  | st, fc :: rest =>
    let out := runOneCall gen st fc
    let tailOut := processToolCalls gen out.1 rest
    (tailOut.1, out.2 :: tailOut.2)

/-- A call that does not execute a handler successfully: its `args` are
absent, its name is unknown, or it is an `add_task_to_plan` whose `subtasks`
value makes the handler throw. -/
def callFails (fc : FunctionCall) : Bool :=
  match fc.args with
  | none => true
  | some args =>
    if fc.name = "add_task_to_plan" then
      match args.task with
      | some td => td.subtasks = some SubtasksVal.notArray
      | none => false
    else if fc.name = "edit_task_in_plan" then false
    else if fc.name = "complete_subtask" then false
    else true

lemma runOneCall_response (gen : Nat → String) (st : AppState)
    (fc : FunctionCall) :
    (runOneCall gen st fc).2.id = fc.id ∧
    (runOneCall gen st fc).2.name = fc.name ∧
    (callFails fc = true →
      (runOneCall gen st fc).2.result = "Unknown function call: " ++ fc.name ∨
      (runOneCall gen st fc).2.result = "Error executing function " ++ fc.name
        ++ ": taskData.subtasks.map is not a function") := by
  rcases fc with ⟨cid, cname, args⟩
  cases args with
  | none => simp [runOneCall, callFails]
  | some a =>
    simp only [runOneCall, callFails]
    by_cases h1 : cname = "add_task_to_plan"
    · simp only [h1, if_true]
      cases hta : a.task with
      | none => simp
      | some td =>
        cases hsub : td.subtasks with
        | none => simp [buildNewTask, hsub]
        | some v =>
          cases v with
          | arr items => simp [buildNewTask, hsub]
          | notArray => simp [buildNewTask, hsub]
    · simp only [h1, if_false]
      by_cases h2 : cname = "edit_task_in_plan"
      · simp only [h2, if_true]
        cases a.taskId with
        | none => simp
        | some tid =>
          by_cases h3 : tid = "" <;> simp [h3]
      · simp only [h2, if_false]
        by_cases h4 : cname = "complete_subtask" <;> simp [h4]

/-- C3: a batch of M function calls produces exactly M tool responses, the
k-th response correlated to the k-th request's call id and name; a failing
request (absent args, unknown name, or a handler exception) still gets its
response, carrying an error string, and does not prevent the responses of
the other requests in the batch. -/
theorem tool_batch_one_response_each (gen : Nat → String) (st : AppState)
    (calls : List FunctionCall) :
    (processToolCalls gen st calls).2.length = calls.length ∧
    List.Forall₂ (fun fc (r : ToolResponse) =>
      r.id = fc.id ∧ r.name = fc.name ∧
      (callFails fc = true →
        r.result = "Unknown function call: " ++ fc.name ∨
        r.result = "Error executing function " ++ fc.name
          ++ ": taskData.subtasks.map is not a function"))
      calls (processToolCalls gen st calls).2 := by
  have h : List.Forall₂ (fun fc (r : ToolResponse) =>
      r.id = fc.id ∧ r.name = fc.name ∧
      (callFails fc = true →
        r.result = "Unknown function call: " ++ fc.name ∨
        r.result = "Error executing function " ++ fc.name
          ++ ": taskData.subtasks.map is not a function"))
      calls (processToolCalls gen st calls).2 := by
    induction calls generalizing st with
    | nil => exact List.Forall₂.nil
    | cons fc rest ih =>
      exact List.Forall₂.cons (runOneCall_response gen st fc) (ih _)
  exact ⟨h.length_eq.symm, h⟩

/-- A concrete identifier supply standing for `crypto.randomUUID()`. -/
def gen0 : Nat → String := fun n => "uuid-" ++ toString n

lemma gen0_ne_empty : ∀ n, gen0 n ≠ "" := by
  intro n h
  have hl := congrArg String.length h
  simp [gen0, String.length_append] at hl
  exact absurd hl.1 (by decide)

/-- A concrete subtask for counterexamples and witnesses. -/
def sampleSubtask : Subtask := ⟨"s1", "First step", false⟩

/-- A concrete task for counterexamples and witnesses. -/
def sampleTask : Task :=
  ⟨"t1", "Write outline", "Draft the outline", "High", "1h", "To Do",
    [sampleSubtask]⟩

/-- A concrete project for counterexamples and witnesses. -/
def sampleProject : Project := ⟨"p1", "Ship the book", [sampleTask], "2024-01-01"⟩

/-- A concrete app state with an open session. -/
def sampleState : AppState := ⟨sampleProject, [], [], [], "idle", true⟩

/-- An `edit_task_in_plan` call whose `taskId` matches no task of
`sampleProject`. -/
def missingEditCall : FunctionCall :=
  ⟨"call-9", "edit_task_in_plan",
    some { taskId := some "no-such-task", status := some "Done" }⟩

/-- Counterexample to C4: an `edit_task_in_plan` call whose `taskId` matches
no task does NOT produce an error result — `handleTaskEdited` maps over the
plan without finding the task and throws nothing, so the dispatcher sends the
success marker, surfaces no error, and leaves the plan unchanged. -/
theorem edit_missing_target_cex :
    (runOneCall gen0 sampleState missingEditCall).2.result = successResult ∧
    (runOneCall gen0 sampleState missingEditCall).1.errors = [] ∧
    (runOneCall gen0 sampleState missingEditCall).1.project.plan
      = [sampleTask] := by
  refine ⟨?_, ?_, ?_⟩ <;> rfl

lemma map_id_of_eq {α : Type} (l : List α) (f : α → α)
    (h : ∀ a ∈ l, f a = a) : l.map f = l := by
  induction l with
  | nil => rfl
  | cons x xs ih =>
    simp only [List.map_cons, h x (by simp)]
    rw [ih fun a ha => h a (by simp [ha])]

/-- C4 (amended): an `edit_task_in_plan` call whose `taskId` matches no task,
and a `complete_subtask` call whose `taskId`/`subtaskId` pair matches no
task/subtask, do not raise an exception: the tool response sent back carries
the success marker (not an error string), nothing is surfaced via the error
callback, the plan's tasks are unchanged, and the session is not torn down. -/
theorem tool_missing_target_is_silent_success (gen : Nat → String)
    (st : AppState) (cid cid2 tid : String) (args args2 : CallArgs)
    (hargs : args.taskId = some tid) (htid : tid ≠ "")
    (hmiss : ∀ t ∈ st.project.plan, t.id ≠ tid)
    (hmiss2 : ∀ t ∈ st.project.plan,
      some t.id ≠ args2.taskId ∨ ∀ s ∈ t.subtasks, some s.id ≠ args2.subtaskId) :
    ((runOneCall gen st ⟨cid, "edit_task_in_plan", some args⟩).2.result
        = successResult ∧
      (runOneCall gen st ⟨cid, "edit_task_in_plan", some args⟩).1.errors
        = st.errors ∧
      (runOneCall gen st ⟨cid, "edit_task_in_plan", some args⟩).1.project.plan
        = st.project.plan ∧
      (runOneCall gen st ⟨cid, "edit_task_in_plan", some args⟩).1.connState
        = st.connState ∧
      (runOneCall gen st ⟨cid, "edit_task_in_plan", some args⟩).1.sessionOpen
        = st.sessionOpen) ∧
    ((runOneCall gen st ⟨cid2, "complete_subtask", some args2⟩).2.result
        = successResult ∧
      (runOneCall gen st ⟨cid2, "complete_subtask", some args2⟩).1.errors
        = st.errors ∧
      (runOneCall gen st ⟨cid2, "complete_subtask", some args2⟩).1.project.plan
        = st.project.plan ∧
      (runOneCall gen st ⟨cid2, "complete_subtask", some args2⟩).1.connState
        = st.connState ∧
      (runOneCall gen st ⟨cid2, "complete_subtask", some args2⟩).1.sessionOpen
        = st.sessionOpen) := by
  constructor
  · have hplan : st.project.plan.map
        (fun t => if t.id = tid then mergeUpdates t args else t)
        = st.project.plan :=
      map_id_of_eq _ _ fun t ht => if_neg (hmiss t ht)
    simp [runOneCall, hargs, htid, handleTaskEdited, hplan]
  · have hplan : st.project.plan.map
        (fun t => if some t.id = args2.taskId then
          { t with subtasks := t.subtasks.map fun s =>
              if some s.id = args2.subtaskId then { s with completed := true }
              else s }
          else t)
        = st.project.plan := by
      refine map_id_of_eq _ _ fun t ht => ?_
      rcases hmiss2 t ht with h | h
      · exact if_neg h
      · have hsubs : t.subtasks.map
            (fun s => if some s.id = args2.subtaskId then
              { s with completed := true } else s)
            = t.subtasks :=
          map_id_of_eq _ _ fun s hs => if_neg (h s hs)
        by_cases hmatch : some t.id = args2.taskId
        · simp [hmatch, hsubs]
        · exact if_neg hmatch
    simp [runOneCall, handleSubtaskCompleted, hplan]

/-- Witness for `tool_missing_target_is_silent_success` at concrete inputs:
editing task id `zz` (absent from `sampleProject`) and completing subtask
`nope` of task `t1` (no such subtask) both yield the success marker and an
unchanged state. -/
theorem tool_missing_target_witness :
    ((runOneCall gen0 sampleState
        ⟨"w1", "edit_task_in_plan", some { taskId := some "zz" }⟩).2.result
      = successResult ∧
    (runOneCall gen0 sampleState
        ⟨"w1", "edit_task_in_plan", some { taskId := some "zz" }⟩).1.errors
      = []) ∧
    ((runOneCall gen0 sampleState
        ⟨"w2", "complete_subtask",
          some { taskId := some "t1", subtaskId := some "nope" }⟩).2.result
      = successResult ∧
    (runOneCall gen0 sampleState
        ⟨"w2", "complete_subtask",
          some { taskId := some "t1", subtaskId := some "nope" }⟩).1.project.plan
      = [sampleTask]) := by
  have h := tool_missing_target_is_silent_success gen0 sampleState "w1" "w2"
    "zz" { taskId := some "zz" }
    { taskId := some "t1", subtaskId := some "nope" }
    rfl (by decide) (by decide)
    (by
      intro t ht
      right
      intro s hs
      simp only [sampleState, sampleProject, List.mem_singleton] at ht
      subst ht
      simp only [sampleTask, List.mem_singleton] at hs
      subst hs
      decide)
  refine ⟨⟨h.1.1, h.1.2.1⟩, ⟨h.2.1, ?_⟩⟩
  have hp := h.2.2.2.1
  simpa [sampleState, sampleProject] using hp

/-- A `task` argument that supplies title, description, priority,
timeEstimate and a subtasks array (no id, no status) — with an empty-string
title. -/
def emptyTitleTaskData : TaskData :=
  { title := some ""
    description := some "Desc"
    priority := some "High"
    timeEstimate := some "2h"
    subtasks := some (SubtasksVal.arr []) }

/-- Counterexample to C6: the handler copies fields with JavaScript `||`, so
a supplied empty-string title is falsy and is replaced by the default
`"Untitled Task"` — the inserted task does not carry the supplied title. -/
theorem add_empty_title_cex :
    buildNewTask gen0 emptyTitleTaskData
      = Except.ok ⟨"uuid-0", "Untitled Task", "Desc", "High", "2h", "To Do", []⟩ := by
  rfl

lemma buildSubtasks_ids (gen : Nat → String) (hgen : ∀ m, gen m ≠ "") :
    ∀ (n : Nat) (items : List SubtaskData),
      List.Forall₂ (fun (std : SubtaskData) (sub : Subtask) =>
        std.id = none → sub.id ≠ "") items (buildSubtasks gen n items) := by
  intro n items
  induction items generalizing n with
  | nil => exact List.Forall₂.nil
  | cons std rest ih =>
    refine List.Forall₂.cons ?_ (ih _)
    intro hid
    simp [buildSubtask, hid, jsOrStr, hgen n]

/-- C6 (amended): for an `add_task_to_plan` call supplying title,
description, priority, timeEstimate and a subtasks array but no id and no
status, the inserted task has a generated non-empty id and status `"To Do"`;
the supplied description is preserved as-is, and the supplied title,
priority and timeEstimate are preserved provided they are non-empty (the
handler uses JavaScript `||`, so an empty-string title/priority/timeEstimate
falls back to its default); an absent priority defaults to `"Medium"`; and
each subtask supplied without an id receives a generated non-empty id. -/
theorem add_task_defaults (gen : Nat → String) (td : TaskData)
    (hgen : ∀ n, gen n ≠ "")
    (hid : td.id = none) (hstatus : td.status = none)
    (hsub : td.subtasks ≠ some SubtasksVal.notArray) :
    ∃ task, buildNewTask gen td = Except.ok task ∧
      task.id = gen 0 ∧ task.id ≠ "" ∧ task.status = "To Do" ∧
      (∀ d0, td.description = some d0 → task.description = d0) ∧
      (∀ t0, td.title = some t0 → t0 ≠ "" → task.title = t0) ∧
      (∀ p0, td.priority = some p0 → p0 ≠ "" → task.priority = p0) ∧
      (td.priority = none → task.priority = "Medium") ∧
      (∀ e0, td.timeEstimate = some e0 → e0 ≠ "" → task.timeEstimate = e0) ∧
      (∀ items, td.subtasks = some (SubtasksVal.arr items) →
        List.Forall₂ (fun (std : SubtaskData) (sub : Subtask) =>
          std.id = none → sub.id ≠ "") items task.subtasks) := by
  have hcore : ∀ items, (mkTask gen td items).id = gen 0 ∧
      (mkTask gen td items).id ≠ "" ∧ (mkTask gen td items).status = "To Do" ∧
      (∀ d0, td.description = some d0 → (mkTask gen td items).description = d0) ∧
      (∀ t0, td.title = some t0 → t0 ≠ "" → (mkTask gen td items).title = t0) ∧
      (∀ p0, td.priority = some p0 → p0 ≠ "" → (mkTask gen td items).priority = p0) ∧
      (td.priority = none → (mkTask gen td items).priority = "Medium") ∧
      (∀ e0, td.timeEstimate = some e0 → e0 ≠ "" →
        (mkTask gen td items).timeEstimate = e0) := by
    intro items
    refine ⟨?_, ?_, ?_, ?_, ?_, ?_, ?_, ?_⟩
    · simp [mkTask, hid, jsOrStr]
    · simp [mkTask, hid, jsOrStr, hgen 0]
    · simp [mkTask, hstatus, jsOrStr]
    · intro d0 hd
      cases hd0 : decide (d0 = "") with
      | true =>
        have : d0 = "" := of_decide_eq_true hd0
        simp [mkTask, hd, jsOrStr, this]
      | false =>
        have : ¬ d0 = "" := of_decide_eq_false hd0
        simp [mkTask, hd, jsOrStr, this]
    · intro t0 ht hne
      simp [mkTask, ht, jsOrStr, hne]
    · intro p0 hp hne
      simp [mkTask, hp, jsOrStr, hne]
    · intro hp
      simp [mkTask, hp, jsOrStr]
    · intro e0 he hne
      simp [mkTask, he, jsOrStr, hne]
  cases hs : td.subtasks with
  | none =>
    refine ⟨mkTask gen td [], by simp [buildNewTask, hs], ?_⟩
    rcases hcore [] with ⟨h1, h2, h3, h4, h5, h6, h7, h8⟩
    exact ⟨h1, h2, h3, h4, h5, h6, h7, h8, fun items hit => by
      exact absurd hit (by simp)⟩
  | some v =>
    cases v with
    | notArray => exact absurd hs hsub
    | arr items =>
      refine ⟨mkTask gen td items, by simp [buildNewTask, hs], ?_⟩
      rcases hcore items with ⟨h1, h2, h3, h4, h5, h6, h7, h8⟩
      refine ⟨h1, h2, h3, h4, h5, h6, h7, h8, fun items2 hit => ?_⟩
      have : items2 = items := by
        injection hit with hv
        injection hv with hv2
        exact hv2.symm
      subst this
      simpa [mkTask] using buildSubtasks_ids gen hgen 1 items2

/-- A well-formed `task` argument for the witness: non-empty supplied fields,
one subtask without an id. -/
def witnessTaskData : TaskData :=
  { title := some "Pack bags"
    description := some "Everything for the trip"
    priority := some "Low"
    timeEstimate := some "3h"
    subtasks := some (SubtasksVal.arr [{ text := some "Socks", completed := false }]) }

/-- Witness for `add_task_defaults` at a concrete input. -/
theorem add_task_defaults_witness :
    ∃ task, buildNewTask gen0 witnessTaskData = Except.ok task ∧
      task.id = gen0 0 ∧ task.id ≠ "" ∧ task.status = "To Do" ∧
      task.title = "Pack bags" := by
  obtain ⟨task, hok, h1, h2, h3, _, h5, _⟩ :=
    add_task_defaults gen0 witnessTaskData gen0_ne_empty rfl rfl (by decide)
  exact ⟨task, hok, h1, h2, h3, h5 "Pack bags" rfl (by decide)⟩

/-- C7: editing an existing task with the payload `{taskId, status: "Done"}`
changes only that task's status field — its title, description, priority,
timeEstimate, id and subtasks are unchanged — and (when the id matches no
other task) every other task of the plan is unchanged, the plan keeping its
length. -/
theorem edit_status_only_frame (st : AppState) (tid : String) (u : CallArgs)
    (hu : u.id = none ∧ u.title = none ∧ u.description = none ∧
      u.priority = none ∧ u.timeEstimate = none ∧ u.subtasks = none ∧
      u.status = some "Done")
    (i : Fin st.project.plan.length)
    (hmatch : (st.project.plan.get i).id = tid)
    (huniq : ∀ j : Fin st.project.plan.length,
      (st.project.plan.get j).id = tid → j.1 = i.1) :
    (handleTaskEdited st tid u).project.plan.length = st.project.plan.length ∧
    ∀ (j : Fin st.project.plan.length)
      (j2 : Fin (handleTaskEdited st tid u).project.plan.length), j.1 = j2.1 →
      (j.1 ≠ i.1 →
        (handleTaskEdited st tid u).project.plan.get j2 = st.project.plan.get j) ∧
      (j.1 = i.1 →
        (handleTaskEdited st tid u).project.plan.get j2
          = { st.project.plan.get j with status := "Done" }) := by
  obtain ⟨hu1, hu2, hu3, hu4, hu5, hu6, hu7⟩ := hu
  constructor
  · simp [handleTaskEdited]
  · intro j j2 hj
    have hget : (handleTaskEdited st tid u).project.plan.get j2
        = if (st.project.plan.get j).id = tid
          then mergeUpdates (st.project.plan.get j) u
          else st.project.plan.get j := by
      simp only [handleTaskEdited, List.get_eq_getElem]
      have hj2 : j2.1 = j.1 := hj.symm
      simp only [hj2]
      rw [List.getElem_map]
    constructor
    · intro hne
      rw [hget, if_neg]
      intro heq
      exact hne (huniq j heq)
    · intro heq2
      have hidm : (st.project.plan.get j).id = tid := by
        have hji : j = i := Fin.ext heq2
        rw [hji]
        exact hmatch
      rw [hget, if_pos hidm]
      simp [mergeUpdates, hu1, hu2, hu3, hu4, hu5, hu6, hu7]

/-- A second concrete task, untouched by the witness edit. -/
def otherTask : Task := ⟨"t2", "Review draft", "Read it", "Low", "2h", "To Do", []⟩

/-- A concrete app state whose plan has two tasks with distinct ids. -/
def twoTaskState : AppState :=
  ⟨⟨"p2", "Ship the book", [sampleTask, otherTask], "2024-01-01"⟩,
    [], [], [], "idle", true⟩

/-- The `{taskId, status: "Done"}` payload aimed at `sampleTask`. -/
def statusDoneArgs : CallArgs := { taskId := some "t1", status := some "Done" }

/-- Witness for `edit_status_only_frame` at a concrete input: marking task
`t1` done leaves task `t2` untouched and only flips `t1`'s status. -/
theorem edit_status_only_frame_witness :
    (handleTaskEdited twoTaskState "t1" statusDoneArgs).project.plan.length = 2 ∧
    (handleTaskEdited twoTaskState "t1" statusDoneArgs).project.plan.get
        ⟨1, by decide⟩ = otherTask ∧
    (handleTaskEdited twoTaskState "t1" statusDoneArgs).project.plan.get
        ⟨0, by decide⟩ = { sampleTask with status := "Done" } := by
  have h := edit_status_only_frame twoTaskState "t1" statusDoneArgs
    ⟨rfl, rfl, rfl, rfl, rfl, rfl, rfl⟩ ⟨0, by decide⟩ rfl (by decide)
  refine ⟨h.1, ?_, ?_⟩
  · have h2 := (h.2 ⟨1, by decide⟩ ⟨1, by decide⟩ rfl).1 (by decide)
    simpa [twoTaskState] using h2
  · have h2 := (h.2 ⟨0, by decide⟩ ⟨0, by decide⟩ rfl).2 rfl
    simpa [twoTaskState] using h2

/-- C10: for an `edit_task_in_plan` call on an existing task, every key of
the payload other than `taskId` is merged verbatim into the matched task —
including the out-of-schema keys `id` and `subtasks` — with no validation of
field names, types or enum values (the payload `u` below is arbitrary), and
the mutated project is persisted. -/
theorem edit_merges_payload_verbatim (st : AppState) (tid : String)
    (u : CallArgs) (i : Fin st.project.plan.length)
    (hmatch : (st.project.plan.get i).id = tid) :
    ∃ h2 : i.1 < (handleTaskEdited st tid u).project.plan.length,
      ((handleTaskEdited st tid u).project.plan.get ⟨i.1, h2⟩).id
          = u.id.getD (st.project.plan.get i).id ∧
      ((handleTaskEdited st tid u).project.plan.get ⟨i.1, h2⟩).title
          = u.title.getD (st.project.plan.get i).title ∧
      ((handleTaskEdited st tid u).project.plan.get ⟨i.1, h2⟩).description
          = u.description.getD (st.project.plan.get i).description ∧
      ((handleTaskEdited st tid u).project.plan.get ⟨i.1, h2⟩).priority
          = u.priority.getD (st.project.plan.get i).priority ∧
      ((handleTaskEdited st tid u).project.plan.get ⟨i.1, h2⟩).timeEstimate
          = u.timeEstimate.getD (st.project.plan.get i).timeEstimate ∧
      ((handleTaskEdited st tid u).project.plan.get ⟨i.1, h2⟩).status
          = u.status.getD (st.project.plan.get i).status ∧
      ((handleTaskEdited st tid u).project.plan.get ⟨i.1, h2⟩).subtasks
          = u.subtasks.getD (st.project.plan.get i).subtasks ∧
      (handleTaskEdited st tid u).saved
          = st.saved ++ [(handleTaskEdited st tid u).project] := by
  have hlen : (handleTaskEdited st tid u).project.plan.length
      = st.project.plan.length := by
    simp [handleTaskEdited]
  refine ⟨by rw [hlen]; exact i.2, ?_⟩
  have hget : (handleTaskEdited st tid u).project.plan.get ⟨i.1, by rw [hlen]; exact i.2⟩
      = mergeUpdates (st.project.plan.get i) u := by
    simp only [handleTaskEdited, List.get_eq_getElem]
    rw [List.getElem_map]
    rw [if_pos]
    exact hmatch
  rw [hget]
  exact ⟨rfl, rfl, rfl, rfl, rfl, rfl, rfl, rfl⟩

/-- A payload carrying out-of-schema keys (`id`, `subtasks`) and an
enum-violating status. -/
def hijackArgs : CallArgs :=
  { taskId := some "t1"
    id := some "hijacked-id"
    status := some "Not A Real Status"
    subtasks := some [] }

/-- Witness for `edit_merges_payload_verbatim` at a concrete input: the
out-of-schema `id` and `subtasks` keys and the enum-violating `status` are
all merged verbatim, and the result is persisted. -/
theorem edit_merges_payload_verbatim_witness :
    ∃ h2 : 0 < (handleTaskEdited sampleState "t1" hijackArgs).project.plan.length,
      ((handleTaskEdited sampleState "t1" hijackArgs).project.plan.get
          ⟨0, h2⟩).id = "hijacked-id" ∧
      ((handleTaskEdited sampleState "t1" hijackArgs).project.plan.get
          ⟨0, h2⟩).status = "Not A Real Status" ∧
      ((handleTaskEdited sampleState "t1" hijackArgs).project.plan.get
          ⟨0, h2⟩).subtasks = [] ∧
      (handleTaskEdited sampleState "t1" hijackArgs).saved
          = [(handleTaskEdited sampleState "t1" hijackArgs).project] := by
  obtain ⟨h2, ha, _, _, _, _, hb, hc, hd⟩ :=
    edit_merges_payload_verbatim sampleState "t1" hijackArgs ⟨0, by decide⟩ rfl
  exact ⟨h2, ha, hb, hc, by simpa [sampleState] using hd⟩

/-! ## Connection precheck

`connect` (`src/hooks/useGeminiLive.ts:218-240`) resolves the credential as
`settings.providers.gemini?.apiKey || process.env.API_KEY` and fails fast —
no transport is constructed — when the result is falsy.  The default settings
store the gemini key as the empty string, which is falsy in JavaScript. -/

/-- Synchronous outcome of the credential precheck inside `connect`. -/
inductive ConnectResult
  | noProject
  | missingKey (errMsg : String)
  | proceed (apiKey : String)
deriving DecidableEq, Repr

/-- `geminiConfig?.apiKey || process.env.API_KEY`: the settings key (a string,
`""` when unconfigured) falls through to the environment key when falsy. -/
def resolveApiKey (settingsKey : String) (envKey : Option String) :
    Option String :=
  if settingsKey = "" then envKey else some settingsKey

/-- JavaScript truthiness of the resolved credential (`!apiKey` is the
failure guard: both `undefined` and `""` are falsy). -/
def keyTruthy : Option String → Bool
  | none => false
  | some s => decide (s ≠ "")

/-- The prefix of `connect` up to (and excluding) the construction of the
`GoogleGenAI` transport: a null project resets to idle; a falsy resolved
credential surfaces a configuration error and sets state `error` without any
network attempt; otherwise the transport attempt proceeds with the key. -/
def connectPrecheck (project : Option Project) (settingsKey : String)
    (envKey : Option String) : ConnectResult :=
  match project with
  | none => ConnectResult.noProject
  | some _ =>
    match resolveApiKey settingsKey envKey with
    | none =>
      ConnectResult.missingKey
        "Gemini API key is missing. Please configure it in Settings."
    | some k =>
      if k = "" then
        ConnectResult.missingKey
          "Gemini API key is missing. Please configure it in Settings."
      else ConnectResult.proceed k

/-- The `connectionState` value set by each precheck outcome. -/
def connectionStateOf : ConnectResult → String
  | ConnectResult.noProject => "idle"
  | ConnectResult.missingKey _ => "error"
  | ConnectResult.proceed _ => "connecting"

/-- Whether a transport (the `GoogleGenAI` client and `ai.live.connect`) is
ever constructed for this outcome. -/
def opensTransport : ConnectResult → Bool
  | ConnectResult.proceed _ => true
  | _ => false

/-- The messages surfaced through `onError` by the precheck. -/
def surfacedErrors : ConnectResult → List String
  | ConnectResult.missingKey m => [m]
  | _ => []

/-- C5: `connect` with a non-null project but no truthy credential (neither
settings nor environment) opens no transport, immediately sets the
connection state to `error`, and surfaces the configuration-error message. -/
theorem connect_without_key_fails_fast (p : Project) (settingsKey : String)
    (envKey : Option String)
    (hkey : keyTruthy (resolveApiKey settingsKey envKey) = false) :
    connectPrecheck (some p) settingsKey envKey
      = ConnectResult.missingKey
          "Gemini API key is missing. Please configure it in Settings." ∧
    connectionStateOf (connectPrecheck (some p) settingsKey envKey) = "error" ∧
    opensTransport (connectPrecheck (some p) settingsKey envKey) = false ∧
    surfacedErrors (connectPrecheck (some p) settingsKey envKey)
      = ["Gemini API key is missing. Please configure it in Settings."] := by
  have hout : connectPrecheck (some p) settingsKey envKey
      = ConnectResult.missingKey
          "Gemini API key is missing. Please configure it in Settings." := by
    simp only [connectPrecheck]
    cases hr : resolveApiKey settingsKey envKey with
    | none => rfl
    | some k =>
      rw [hr] at hkey
      simp only [keyTruthy, decide_eq_false_iff_not, not_not] at hkey
      simp [hkey]
  exact ⟨hout, by rw [hout]; rfl, by rw [hout]; rfl, by rw [hout]; rfl⟩

/-- Witness for `connect_without_key_fails_fast`: unconfigured settings store
the key as `""` and no environment key is present. -/
theorem connect_without_key_fails_fast_witness :
    connectPrecheck (some sampleProject) "" none
      = ConnectResult.missingKey
          "Gemini API key is missing. Please configure it in Settings." ∧
    connectionStateOf (connectPrecheck (some sampleProject) "" none) = "error" ∧
    opensTransport (connectPrecheck (some sampleProject) "" none) = false :=
  let h := connect_without_key_fails_fast sampleProject "" none (by decide)
  ⟨h.1, h.2.1, h.2.2.1⟩

/-! ## Transcript accumulator

The merge effect of `AIAssistant` (`src/components/AIAssistant.tsx:185-215`)
folds the live `userTranscript` / `aiTranscript` values into the message
list.  JavaScript truthiness on the transcripts is non-emptiness. -/

/-- The body of the `setMessages` functional update in the transcript merge
effect, branch for branch. -/
def mergeTranscripts (msgs : List Message) (userT aiT : String) :
    List Message :=
  if userT ≠ "" then
    match msgs.getLast? with
    | some last =>
      if last.sender = "user" ∧ last.isFinal = false then
        msgs.dropLast ++ [{ last with text := userT }]
      else msgs ++ [⟨"user", userT, false⟩]
    | none => msgs ++ [⟨"user", userT, false⟩]
  else if aiT ≠ "" then
    match msgs.getLast? with
    | some last =>
      if last.sender = "ai" ∧ last.isFinal = false then
        msgs.dropLast ++ [{ last with text := aiT }]
      else if last.sender = "user" ∧ last.isFinal = false then
        msgs.dropLast ++ [{ last with isFinal := true }, ⟨"ai", aiT, false⟩]
      else msgs ++ [⟨"ai", aiT, false⟩]
    | none => msgs ++ [⟨"ai", aiT, false⟩]
  else
    match msgs.getLast? with
    | some last =>
      if last.isFinal = false then msgs.dropLast ++ [{ last with isFinal := true }]
      else msgs
    | none => msgs

/-- Counterexample to C8: a partial `user` fragment arriving while the open
trailing entry belongs to `ai` does NOT finalize the `ai` entry — the code
only checks `last?.sender === 'user'` in the user branch and appends a new
entry, leaving the `ai` entry non-final. -/
theorem transcript_handoff_cex :
    mergeTranscripts [⟨"ai", "Hi", false⟩] "He" "Hi"
      = [⟨"ai", "Hi", false⟩, ⟨"user", "He", false⟩] ∧
    (mergeTranscripts [⟨"ai", "Hi", false⟩] "He" "Hi").get ⟨0, by decide⟩
      = ⟨"ai", "Hi", false⟩ := by
  constructor <;> rfl

/-- C8 (amended): the hand-off finalization is one-directional.  A partial
`ai` fragment processed while the trailing entry is a non-final `user` entry
(and the user transcript is clear) finalizes the `user` entry and opens a new
non-final `ai` entry; but a partial `user` fragment processed while the
trailing entry is a non-final `ai` entry merely appends a new non-final
`user` entry, leaving the `ai` entry non-final. -/
theorem transcript_handoff_one_directional (ms : List Message)
    (lastm : Message) (userT aiT : String) :
    (lastm.sender = "user" → lastm.isFinal = false → aiT ≠ "" →
      mergeTranscripts (ms ++ [lastm]) "" aiT
        = ms ++ [{ lastm with isFinal := true }, ⟨"ai", aiT, false⟩]) ∧
    (lastm.sender = "ai" → lastm.isFinal = false → userT ≠ "" →
      mergeTranscripts (ms ++ [lastm]) userT aiT
        = (ms ++ [lastm]) ++ [⟨"user", userT, false⟩]) := by
  constructor
  · intro hs hf ha
    obtain ⟨sn, tx, fin⟩ := lastm
    simp only at hs hf
    subst hs
    subst hf
    simp [mergeTranscripts, ha, List.getLast?_concat, List.dropLast_concat]
  · intro hs hf hu
    obtain ⟨sn, tx, fin⟩ := lastm
    simp only at hs hf
    subst hs
    subst hf
    simp [mergeTranscripts, hu, List.getLast?_concat, List.dropLast_concat]

/-- Witness for `transcript_handoff_one_directional` at concrete inputs. -/
theorem transcript_handoff_one_directional_witness :
    mergeTranscripts [⟨"user", "Hello", false⟩] "" "Sure"
      = [⟨"user", "Hello", true⟩, ⟨"ai", "Sure", false⟩] ∧
    mergeTranscripts [⟨"ai", "Sure", false⟩] "Wait" "Sure"
      = [⟨"ai", "Sure", false⟩, ⟨"user", "Wait", false⟩] := by
  have h1 := (transcript_handoff_one_directional [] ⟨"user", "Hello", false⟩
    "" "Sure").1 rfl rfl (by decide)
  have h2 := (transcript_handoff_one_directional [] ⟨"ai", "Sure", false⟩
    "Wait" "Sure").2 rfl rfl (by decide)
  constructor
  · simpa using h1
  · simpa using h2

/-! ## Audio capture pipeline

`startListening` / `stopListening` (`src/hooks/useGeminiLive.ts:296-333`).
The `onaudioprocess` handler closes over `sessionPromiseRef` and sends the
encoded block iff that ref is set; it consults no listening flag.
`stopListening` disconnects the processor node, stops the microphone tracks
and closes the input context but leaves the session ref intact. -/

/-- The refs `stopListening` and the capture handler interact with. -/
structure CaptureState where
  scriptProcessorSet : Bool
  mediaStreamActive : Bool
  inputContextOpen : Bool
  sessionSet : Bool
  isListening : Bool
deriving DecidableEq, Repr

/-- The synchronous effect of `startListening` on these refs (the platform
acquisition steps having succeeded). -/
def startListening (s : CaptureState) : CaptureState :=
  { s with scriptProcessorSet := true, mediaStreamActive := true,
           inputContextOpen := true, isListening := true }

/-- `stopListening` (`src/hooks/useGeminiLive.ts:320-333`): disconnect and
null the processor node, stop and release the microphone stream, close the
input audio context, clear the listening flag.  The session ref is not
touched. -/
def stopListening (s : CaptureState) : CaptureState :=
  { s with scriptProcessorSet := false, mediaStreamActive := false,
           inputContextOpen := false, isListening := false }

/-- The `onaudioprocess` callback (`src/hooks/useGeminiLive.ts:307-313`):
encode the block (`createBlob`) and send it through the session promise if
that ref is set.  Returns the chunks sent by this invocation. -/
def onAudioProcess (s : CaptureState) (block : List Int) : List (List Int) :=
  if s.sessionSet then [block] else []

/-- Counterexample to C9: after `startListening` then `stopListening`, a
stray invocation of the retained `onaudioprocess` callback still sends the
chunk — the handler guards only on the session ref, which `stopListening`
leaves set. -/
theorem stray_callback_after_stop_cex :
    onAudioProcess
      (stopListening (startListening ⟨false, false, false, true, false⟩))
      [1, 2, 3] = [[1, 2, 3]] := by
  rfl

/-- C9 (amended): `stopListening` releases the microphone stream, disconnects
the processor node and clears the listening flag — so the platform delivers
no further capture callbacks — but it leaves the session reference intact,
and the capture handler has no listening guard: a stray invocation of the
retained callback after `stop()` still sends an encoded chunk whenever the
session reference is set, and sends nothing only when it is unset. -/
theorem stop_listening_releases_but_no_send_guard (s : CaptureState)
    (block : List Int) :
    (stopListening s).scriptProcessorSet = false ∧
    (stopListening s).mediaStreamActive = false ∧
    (stopListening s).isListening = false ∧
    (stopListening s).sessionSet = s.sessionSet ∧
    (s.sessionSet = true → onAudioProcess (stopListening s) block = [block]) ∧
    (s.sessionSet = false → onAudioProcess (stopListening s) block = []) := by
  refine ⟨rfl, rfl, rfl, rfl, ?_, ?_⟩
  · intro h
    simp [onAudioProcess, stopListening, h]
  · intro h
    simp [onAudioProcess, stopListening, h]

/-- Witness for `stop_listening_releases_but_no_send_guard` at a concrete
input. -/
theorem stop_listening_no_send_guard_witness :
    (stopListening ⟨true, true, true, true, true⟩).mediaStreamActive = false ∧
    (stopListening ⟨true, true, true, true, true⟩).isListening = false ∧
    onAudioProcess (stopListening ⟨true, true, true, true, true⟩) [7] = [[7]] := by
  have h := stop_listening_releases_but_no_send_guard
    ⟨true, true, true, true, true⟩ [7]
  exact ⟨h.2.1, h.2.2.1, h.2.2.2.2.1 rfl⟩

end GoalForge
